import Mathlib

/-!
# Verification of the e-ink time-tracking daemon (`app.py` / `hubstaff_getworked.py`)

A shallow embedding of the credential-lifecycle-aware polling core of the
repository.  Wall-clock instants are modelled as natural numbers of seconds
(local time); the stored expiry string `"%Y-%m-%d %I:%M%p"` round-trips at
minute precision, so the exchange step truncates the computed expiry to a
multiple of 60.  Python `float` arithmetic on the configured hours-per-day is
modelled with exact rationals (`ℚ`); every concrete value used in a theorem
below is a dyadic rational small enough that IEEE-754 double arithmetic on it
is exact, so the rational model coincides with the Python run on those values.
Remote HTTP calls are an oracle (`Remote`): `Except.error ()` models a raised
`requests.exceptions.RequestException`, while `Option` fields inside the
response bodies model presence or absence of JSON keys (a missing key raises
an uncaught `KeyError` in the source).  Display-device I/O always succeeds in
this model; no claim under study concerns the `IOError` paths.
-/

namespace RpiEink

/-- Body of the OpenID discovery document, as read by `get_token_endpoint`:
only the `token_endpoint` key is accessed (`none` = key absent). -/
structure DiscoveryBody where
  token_endpoint : Option String
  deriving DecidableEq, Repr

/-- Body of the token-exchange response, as read by
`get_access_token_access_expiry_and_new_refresh_token`: the three keys it
accesses (`none` = key absent, which raises `KeyError` in the source). -/
structure ExchangeBody where
  access_token : Option String
  refresh_token : Option String
  expires_in : Option Nat
  deriving DecidableEq, Repr

/-- The `user` object of the `/v2/users/me` response body. -/
structure UserBody where
  id : Option Nat
  deriving DecidableEq, Repr

/-- Body of the `/v2/users/me` response, as read by `get_user_id`
(`user = none` models a 401-class error body that lacks the `user` key). -/
structure UsersMeBody where
  user : Option UserBody
  deriving DecidableEq, Repr

/-- One element of the `organizations` array. -/
structure Org where
  id : Nat
  name : String
  deriving DecidableEq, Repr

/-- Body of the `/v2/organizations` response, as read by
`get_organization_id`. -/
structure OrgsBody where
  organizations : Option (List Org)
  deriving DecidableEq, Repr

/-- One element of the `daily_activities` array; only the `billable` field is
read by `get_billable_activity`. -/
structure ActivityRecord where
  billable : Int
  deriving DecidableEq, Repr

/-- Body of the daily-activities response, as read by
`get_billable_activity`. -/
structure DailyBody where
  daily_activities : Option (List ActivityRecord)
  deriving DecidableEq, Repr

/-- Oracle for the five remote HTTP calls one loop iteration can make.
`Except.error ()` models `requests.exceptions.RequestException`; the exchange
response may depend on the refresh token that was posted. -/
structure Remote where
  discovery : Except Unit DiscoveryBody
  exchange : String → Except Unit ExchangeBody
  usersMe : Except Unit UsersMeBody
  organizations : Except Unit OrgsBody
  daily : Except Unit DailyBody

/-- Contents of `refresh_token.json` as written by `save_tokens_to_file`:
exactly the three fields, with the expiry already in parsed (seconds,
minute-precision) form. -/
structure PersistedRec where
  access_token : String
  access_expiry : Nat
  refresh_token : String
  deriving DecidableEq, Repr

/-- The in-memory credential variables of `main` (`access_token`,
`access_expiry`, `refresh_token`) together with the current contents of the
persisted record. -/
structure St where
  access_token : String
  access_expiry : Nat
  refresh_token : String
  persisted : PersistedRec
  deriving DecidableEq, Repr

/-- Observable actions of one loop iteration, in program order:
`reboot` is `os.system("reboot")`; `discovery`, `exchange`, `saveTokens` are
the refresh path; `getUserId`, `getOrgId`, `getActivities` are the three
ActivityClient calls (`getActivities` records the `date[start]`/`date[stop]`
query parameters as day indices); `displayImage`/`render` are display
updates. -/
inductive Action where
  | reboot
  | discovery
  | exchange (posted : String)
  | saveTokens
  | getUserId
  | getOrgId
  | getActivities (dateStart dateStop : Nat)
  | displayImage (file : String)
  | render
  deriving DecidableEq, Repr

/-- The three ActivityClient calls (user resolution, organization resolution,
activity fetch). -/
def Action.isActivityCall : Action → Bool
  | .getUserId => true
  | .getOrgId => true
  | .getActivities _ _ => true
  | _ => false

/-- Uncaught Python exceptions reachable in the workday branch: a `KeyError`
on a missing JSON key, or the `UnboundLocalError` raised when
`get_organization_id` returns its never-bound local variable. -/
inductive PyErr where
  | keyError (k : String)
  | unboundLocal (v : String)
  deriving DecidableEq, Repr

/-- How one loop iteration ends: `ok` (successful render, then
`time.sleep 55`), `idle` (weekend/Saturday image, then `time.sleep 600`),
`netRetry` (a `requests` exception was caught, `time.sleep 30`), or `crash`
(an exception no `except` clause catches terminates the process). -/
inductive Outcome where
  | ok (worked : Int) (remaining : ℚ) (sleep : Nat)
  | idle (sleep : Nat)
  | netRetry (sleep : Nat)
  | crash (e : PyErr)
  deriving DecidableEq, Repr

/-- Substring occurrence test on character lists, used to model the Python
membership test `"NXLog" in org["name"]`. -/
def contains_seq (pat : List Char) : List Char → Bool
  | [] => pat.isPrefixOf []
  | c :: rest => pat.isPrefixOf (c :: rest) || contains_seq pat rest

/-- The per-element test of the `get_organization_id` loop:
`"NXLog" in org["name"]`. -/
def nxlog_match (org : Org) : Bool :=
  contains_seq "NXLog".data org.name.data

/-- `get_organization_id` (app.py 115–126), applied to the decoded
`organizations` array: the `for` loop rebinds `organization_id` on every
element whose `name` contains `"NXLog"`, so the last match wins; if no
element matched, the final `return organization_id` raises
`UnboundLocalError`, modelled as `none`. -/
def get_organization_id (organizations : List Org) : Option Nat :=
  organizations.foldl
    (fun acc org => if nxlog_match org then some org.id else acc)
    none

/-- The `date[start]`/`date[stop]` computation of `get_billable_activity`
(app.py 135–140): both are `strftime("%Y-%m-%d")` of `now + 7 hours`, i.e.
the calendar-day index of the local clock advanced by 7 hours. -/
def get_billable_activity_dates (now : Nat) : Nat × Nat :=
  ((now + 7 * 3600) / 86400, (now + 7 * 3600) / 86400)

/-- The summation loop of `get_billable_activity` (app.py 155–157). -/
def sum_billable (activities : List ActivityRecord) : Int :=
  activities.foldl (fun acc day => acc + day.billable) 0

/-- `get_time_remaining` (app.py 162–171): `desired * 60 * 60 - worked`,
clamped below at 0; plain float arithmetic with no rounding, modelled
exactly over `ℚ`. -/
def get_time_remaining (desired_worked_hours_per_day : ℚ)
    (billable_activity_in_seconds : ℤ) : ℚ :=
  let desired_worked_seconds_per_day := desired_worked_hours_per_day * 60 * 60
  let work_time_remaining :=
    desired_worked_seconds_per_day - billable_activity_in_seconds
  if work_time_remaining < 0 then 0 else work_time_remaining

/-- The refresh trigger (app.py 276–278):
`datetime.now() + timedelta(minutes=5) > strptime(access_expiry)`. -/
def needs_refresh (now access_expiry : Nat) : Bool :=
  now + 5 * 60 > access_expiry

/-- Result of the refresh phase: state after the phase, its action trace, and
`some o` when the iteration ends there (exception) instead of falling through
to the fetch phase. -/
structure StepOut where
  st : St
  trace : List Action
  halt : Option Outcome
  deriving Repr

/-- The refresh phase of a workday iteration (app.py 276–290).  On full
success the in-memory `access_token` and `access_expiry` are rebound and
`save_tokens_to_file` writes all three new values — but the in-memory
`refresh_token` variable is *not* rebound (the tuple assignment binds the new
token to `new_refresh_token` only), exactly as in the source.  The computed
expiry is `now + expires_in` truncated to minute precision by the
`strftime`/`strptime` round-trip. -/
def refresh_step (remote : Remote) (now : Nat) (st : St) : StepOut :=
  if needs_refresh now st.access_expiry then
    match remote.discovery with
    | .error _ => ⟨st, [.discovery], some (.netRetry 30)⟩
    | .ok doc =>
      match doc.token_endpoint with
      | none => ⟨st, [.discovery], some (.crash (.keyError "token_endpoint"))⟩
      | some _token_endpoint =>
        match remote.exchange st.refresh_token with
        | .error _ =>
            ⟨st, [.discovery, .exchange st.refresh_token], some (.netRetry 30)⟩
        | .ok body =>
          match body.access_token, body.refresh_token, body.expires_in with
          | some access_token, some new_refresh_token, some expires_in =>
              let access_expiry := (now + expires_in) / 60 * 60
              ⟨{ access_token := access_token
                 access_expiry := access_expiry
                 refresh_token := st.refresh_token
                 persisted := ⟨access_token, access_expiry, new_refresh_token⟩ },
               [.discovery, .exchange st.refresh_token, .saveTokens], none⟩
          | none, _, _ =>
              ⟨st, [.discovery, .exchange st.refresh_token],
               some (.crash (.keyError "access_token"))⟩
          | some _, none, _ =>
              ⟨st, [.discovery, .exchange st.refresh_token],
               some (.crash (.keyError "refresh_token"))⟩
          | some _, some _, none =>
              ⟨st, [.discovery, .exchange st.refresh_token],
               some (.crash (.keyError "expires_in"))⟩
  else ⟨st, [], none⟩

/-- The fetch-and-render phase of a workday iteration (app.py 292–331):
`get_user_id`, `get_organization_id`, `get_billable_activity`,
`get_time_remaining`, then render and `time.sleep(55)`.  `user_id` and
`organization_id` are plain loop-local variables fetched anew here on every
iteration.  None of this phase mutates the credential state. -/
def fetch_step (remote : Remote) (now : Nat) (hoursPerDay : ℚ) :
    List Action × Outcome :=
  match remote.usersMe with
  | .error _ => ([.getUserId], .netRetry 30)
  | .ok body =>
    match body.user with
    | none => ([.getUserId], .crash (.keyError "user"))
    | some user =>
      match user.id with
      | none => ([.getUserId], .crash (.keyError "id"))
      | some _user_id =>
        match remote.organizations with
        | .error _ => ([.getUserId, .getOrgId], .netRetry 30)
        | .ok orgBody =>
          match orgBody.organizations with
          | none => ([.getUserId, .getOrgId], .crash (.keyError "organizations"))
          | some orgs =>
            match get_organization_id orgs with
            | none =>
                ([.getUserId, .getOrgId], .crash (.unboundLocal "organization_id"))
            | some _organization_id =>
              let dates := get_billable_activity_dates now
              match remote.daily with
              | .error _ =>
                  ([.getUserId, .getOrgId, .getActivities dates.1 dates.2],
                   .netRetry 30)
              | .ok dailyBody =>
                match dailyBody.daily_activities with
                | none =>
                    ([.getUserId, .getOrgId, .getActivities dates.1 dates.2],
                     .crash (.keyError "daily_activities"))
                | some activities =>
                    let worked := sum_billable activities
                    let remaining := get_time_remaining hoursPerDay worked
                    ([.getUserId, .getOrgId, .getActivities dates.1 dates.2,
                      .render],
                     .ok worked remaining 55)

/-- One workday iteration (the `else` branch, app.py 273–335): the refresh
phase runs to completion (including persisting) before the fetch phase
starts; an exception in either phase ends the iteration with the
corresponding outcome. -/
def workday_iter (remote : Remote) (now : Nat) (hoursPerDay : ℚ) (st : St) :
    St × List Action × Outcome :=
  let r := refresh_step remote now st
  match r.halt with
  | some o => (r.st, r.trace, o)
  | none =>
    let f := fetch_step remote now hoursPerDay
    (r.st, r.trace ++ f.1, f.2)

/-- The three-way day dispatch (app.py 232–273): the source literally tests
`day_of_week == 8` for the Sunday branch and `== 6` for Saturday; everything
else falls into the workday `else` branch. -/
inductive Branch where
  | weekend
  | saturday
  | workday
  deriving DecidableEq, Repr

/-- `day_of_week = datetime.today().isoweekday()` followed by the
`if day_of_week == 8 / elif day_of_week == 6 / else` dispatch, verbatim from
the source. -/
def select_branch (day_of_week : Nat) : Branch :=
  if day_of_week = 8 then .weekend
  else if day_of_week = 6 then .saturday
  else .workday

/-- The watchdog test at the top of the loop (app.py 229):
`(dt.now() - start_time).total_seconds() > 60 * 60`. -/
def watchdog_fires (now start_time : Nat) : Bool :=
  60 * 60 < now - start_time

/-- One full iteration of the main loop (app.py 228–349): first the watchdog
check (emitting `reboot` when uptime exceeds one hour), then the day
dispatch.  The weekend and Saturday branches display a fixed image and wait
600 s; the workday branch runs `workday_iter`. -/
def loop_iter (remote : Remote) (now start_time day_of_week : Nat)
    (hoursPerDay : ℚ) (st : St) : St × List Action × Outcome :=
  let wd : List Action := if watchdog_fires now start_time then [.reboot] else []
  match select_branch day_of_week with
  | .weekend => (st, wd ++ [.displayImage "sunday.bmp"], .idle 600)
  | .saturday => (st, wd ++ [.displayImage "saturday.bmp"], .idle 600)
  | .workday =>
    let w := workday_iter remote now hoursPerDay st
    (w.1, wd ++ w.2.1, w.2.2)

/-! ## Concrete environments used to instantiate the theorems -/

/-- A remote that answers every call successfully: the exchange issues the
pair `("at1", "rt1")` with a 24-hour expiry, the user id is 42, one
organization named `"NXLog Ltd"` with id 7 exists, and the day has two
activity records with `billable` 100 and 250. -/
def rOK : Remote :=
  { discovery := .ok ⟨some "https://ep"⟩
    exchange := fun _ => .ok ⟨some "at1", some "rt1", some 86400⟩
    usersMe := .ok ⟨some ⟨some 42⟩⟩
    organizations := .ok ⟨some [⟨7, "NXLog Ltd"⟩]⟩
    daily := .ok ⟨some [⟨100⟩, ⟨250⟩]⟩ }

/-- Like `rOK`, but `/v2/users/me` answers with a 401-class error body that
lacks the `user` key (`requests` raises no exception on an HTTP 401). -/
def r401 : Remote :=
  { rOK with usersMe := .ok ⟨none⟩ }

/-- Like `rOK`, but the discovery GET raises a network exception. -/
def rNetD : Remote :=
  { rOK with discovery := .error () }

/-- Like `rOK`, but the token-exchange POST raises a network exception. -/
def rNetX : Remote :=
  { rOK with exchange := fun _ => .error () }

/-- Credential whose expiry (second 1000240) is 4 minutes after the clock
value 1000000 — inside the 5-minute refresh window. -/
def stA : St := ⟨"at0", 1000240, "rt0", ⟨"at0", 1000240, "rt0"⟩⟩

/-- Credential whose expiry (second 1000600) is 10 minutes after the clock
value 1000000 — outside the 5-minute refresh window. -/
def stB : St := ⟨"at0", 1000600, "rt0", ⟨"at0", 1000600, "rt0"⟩⟩

/-! ## Helper lemmas about the step functions -/

/-- Every action the fetch phase can emit is one of the three ActivityClient
calls (with the `getActivities` payload fixed to the computed query dates) or
the final render. -/
lemma fetch_step_trace_mem (remote : Remote) (now : Nat) (hoursPerDay : ℚ) :
    ∀ a ∈ (fetch_step remote now hoursPerDay).1,
      a = Action.getUserId ∨ a = Action.getOrgId
      ∨ a = Action.getActivities (get_billable_activity_dates now).1
            (get_billable_activity_dates now).2
      ∨ a = Action.render := by
  intro a ha
  unfold fetch_step at ha
  repeat' split at ha
  all_goals simp only [List.mem_cons, List.mem_singleton, List.not_mem_nil,
    or_false, false_or] at ha
  all_goals tauto

/-- Every action the refresh phase can emit is discovery, an exchange posting
the (old) in-memory refresh token, or the save. -/
lemma refresh_step_trace_mem (remote : Remote) (now : Nat) (st : St) :
    ∀ a ∈ (refresh_step remote now st).trace,
      a = Action.discovery ∨ a = Action.exchange st.refresh_token
      ∨ a = Action.saveTokens := by
  intro a ha
  unfold refresh_step at ha
  repeat' split at ha
  all_goals simp only [List.mem_cons, List.mem_singleton, List.not_mem_nil,
    or_false, false_or] at ha
  all_goals tauto

/-- Outside the 5-minute window the refresh phase does nothing at all. -/
lemma refresh_step_not_needed (remote : Remote) (now : Nat) (st : St)
    (h : ¬ now + 5 * 60 > st.access_expiry) :
    refresh_step remote now st = ⟨st, [], none⟩ := by
  unfold refresh_step needs_refresh
  simp [h]

/-- Inside the 5-minute window the refresh decision test is positive. -/
lemma needs_refresh_pos (now e : Nat) (h : now + 5 * 60 > e) :
    needs_refresh now e = true := by
  simp [needs_refresh, h]

/-- Inside the 5-minute window the refresh phase always begins with the
discovery call. -/
lemma refresh_step_needed_head (remote : Remote) (now : Nat) (st : St)
    (h : now + 5 * 60 > st.access_expiry) :
    ∃ rest, (refresh_step remote now st).trace = Action.discovery :: rest := by
  unfold refresh_step
  rw [if_pos (needs_refresh_pos now st.access_expiry h)]
  repeat' split
  all_goals exact ⟨_, rfl⟩

/-- When the refresh phase runs and falls through to the fetch phase, its
trace is exactly discovery, exchange of the old token, save — in that
order. -/
lemma refresh_step_success_trace (remote : Remote) (now : Nat) (st : St)
    (h : now + 5 * 60 > st.access_expiry)
    (hh : (refresh_step remote now st).halt = none) :
    (refresh_step remote now st).trace
      = [Action.discovery, Action.exchange st.refresh_token, Action.saveTokens] := by
  unfold refresh_step at hh ⊢
  rw [if_pos (needs_refresh_pos now st.access_expiry h)] at hh ⊢
  repeat' split at hh
  all_goals try rfl
  all_goals simp_all

/-- The refresh phase either falls through, retries after 30 s, or crashes;
it never ends the iteration with a rendered outcome. -/
lemma refresh_step_halt_cases (remote : Remote) (now : Nat) (st : St) :
    (refresh_step remote now st).halt = none
    ∨ (refresh_step remote now st).halt = some (Outcome.netRetry 30)
    ∨ ∃ e, (refresh_step remote now st).halt = some (Outcome.crash e) := by
  unfold refresh_step
  repeat' split
  all_goals simp

/-- When the refresh phase halts the iteration, the workday trace is just the
refresh trace. -/
lemma workday_iter_trace_halt (remote : Remote) (now : Nat) (hoursPerDay : ℚ)
    (st : St) (o : Outcome) (ho : (refresh_step remote now st).halt = some o) :
    (workday_iter remote now hoursPerDay st).2.1
      = (refresh_step remote now st).trace := by
  simp only [workday_iter, ho]

/-- When the refresh phase falls through, the workday trace is the refresh
trace followed by the fetch trace. -/
lemma workday_iter_trace_cont (remote : Remote) (now : Nat) (hoursPerDay : ℚ)
    (st : St) (hn : (refresh_step remote now st).halt = none) :
    (workday_iter remote now hoursPerDay st).2.1
      = (refresh_step remote now st).trace
        ++ (fetch_step remote now hoursPerDay).1 := by
  simp only [workday_iter, hn]

/-- When the refresh phase halts the iteration, the outcome is its halt
value. -/
lemma workday_iter_outcome_halt (remote : Remote) (now : Nat)
    (hoursPerDay : ℚ) (st : St) (o : Outcome)
    (ho : (refresh_step remote now st).halt = some o) :
    (workday_iter remote now hoursPerDay st).2.2 = o := by
  simp only [workday_iter, ho]

/-- When the refresh phase falls through, the outcome is the fetch phase's
outcome. -/
lemma workday_iter_outcome_cont (remote : Remote) (now : Nat)
    (hoursPerDay : ℚ) (st : St) (hn : (refresh_step remote now st).halt = none) :
    (workday_iter remote now hoursPerDay st).2.2
      = (fetch_step remote now hoursPerDay).2 := by
  simp only [workday_iter, hn]

/-- If the fetch phase succeeds, its trace is the full sequence of the three
ActivityClient calls followed by the render. -/
lemma fetch_step_ok_trace (remote : Remote) (now : Nat) (hoursPerDay : ℚ)
    (w : ℤ) (r : ℚ) (s : Nat)
    (h : (fetch_step remote now hoursPerDay).2 = Outcome.ok w r s) :
    (fetch_step remote now hoursPerDay).1
      = [Action.getUserId, Action.getOrgId,
         Action.getActivities (get_billable_activity_dates now).1
           (get_billable_activity_dates now).2, Action.render] := by
  unfold fetch_step at h ⊢
  repeat' split at h
  all_goals try rfl
  all_goals simp_all

/-- Exhaustive description of the actions one workday iteration can emit. -/
lemma workday_iter_trace_mem (remote : Remote) (now : Nat) (hoursPerDay : ℚ)
    (st : St) :
    ∀ a ∈ (workday_iter remote now hoursPerDay st).2.1,
      a = Action.discovery ∨ a = Action.exchange st.refresh_token
      ∨ a = Action.saveTokens ∨ a = Action.getUserId ∨ a = Action.getOrgId
      ∨ a = Action.getActivities (get_billable_activity_dates now).1
            (get_billable_activity_dates now).2
      ∨ a = Action.render := by
  intro a ha
  cases hh : (refresh_step remote now st).halt with
  | some o =>
      rw [workday_iter_trace_halt remote now hoursPerDay st o hh] at ha
      rcases refresh_step_trace_mem remote now st a ha with h | h | h <;> tauto
  | none =>
      rw [workday_iter_trace_cont remote now hoursPerDay st hh] at ha
      rcases List.mem_append.mp ha with hm | hm
      · rcases refresh_step_trace_mem remote now st a hm with h | h | h <;> tauto
      · rcases fetch_step_trace_mem remote now hoursPerDay a hm
          with h | h | h | h <;> tauto

/-- Running `rOK` against `stB` outside the refresh window renders
successfully: 350 billable seconds, 30250 remaining, 55 s wait. -/
lemma rOK_stB_outcome :
    (workday_iter rOK 1000000 (17 / 2) stB).2.2 = Outcome.ok 350 30250 55 := by
  norm_num [workday_iter, refresh_step, fetch_step, needs_refresh, rOK, stB,
    get_organization_id, nxlog_match, contains_seq, sum_billable,
    get_time_remaining, get_billable_activity_dates]

/-! ## Claim theorems -/

/-- C1: evaluation at the failing scenario.  After a successful refresh the
*persisted* record holds the newly issued refresh token `"rt1"`, but the
in-memory credential still holds the consumed token `"rt0"` (the source
never rebinds the `refresh_token` variable), so the next refresh in the same
process posts `"rt0"` — the already-consumed token — and never posts
`"rt1"`, contradicting the rotation invariant for the in-memory
credential. -/
theorem C1_refresh_token_rotation_eval :
    (workday_iter rOK 1000000 (17 / 2) stA).1.persisted.refresh_token = "rt1"
    ∧ (workday_iter rOK 1000000 (17 / 2) stA).1.refresh_token = "rt0"
    ∧ Action.exchange "rt0"
        ∈ (workday_iter rOK 1086200 (17 / 2)
            (workday_iter rOK 1000000 (17 / 2) stA).1).2.1
    ∧ Action.exchange "rt1"
        ∉ (workday_iter rOK 1086200 (17 / 2)
            (workday_iter rOK 1000000 (17 / 2) stA).1).2.1 := by
  refine ⟨rfl, rfl, by decide, by decide⟩

/-- C2: evaluation at the failing input.  The source dispatches the Sunday
branch on `day_of_week == 8`, a value `isoweekday()` never produces, so ISO
weekday 7 (Sunday) falls into the workday `else` branch instead of the
Weekend branch; weekday 6 and weekdays 1–5 behave as claimed. -/
theorem C2_day_branch_eval :
    select_branch 7 = Branch.workday
    ∧ select_branch 6 = Branch.saturday
    ∧ select_branch 1 = Branch.workday
    ∧ select_branch 2 = Branch.workday
    ∧ select_branch 3 = Branch.workday
    ∧ select_branch 4 = Branch.workday
    ∧ select_branch 5 = Branch.workday := by decide

/-- C5 counterexample: with a credential 10 minutes from expiry, a 401-class
body from `/v2/users/me` ends the iteration with an uncaught `KeyError`
(process death), leaves the credential unchanged, and the next iteration —
run here on the unchanged state — performs no refresh at all.  This refutes
the claim that an auth failure forces a refresh on the very next
iteration. -/
theorem C5_counterexample :
    workday_iter r401 1000000 (17 / 2) stB
        = (stB, [Action.getUserId], Outcome.crash (.keyError "user"))
    ∧ Action.discovery ∉ (workday_iter r401 1000060 (17 / 2) stB).2.1 := by
  decide

/-- C5 amended: the orchestrator has no notion of an `AuthError`.  `requests`
raises nothing on an HTTP 401, so whenever the `/v2/users/me` response body
lacks the `user` key the workday iteration dies with an uncaught `KeyError`,
the credential state is untouched, and no refresh is forced; the only
failure kind the loop distinguishes is a `requests`-level exception
(`NetworkError`). -/
theorem C5_auth_error_amended :
    ∀ (remote : Remote) (now : Nat) (hoursPerDay : ℚ) (st : St),
      ¬ now + 5 * 60 > st.access_expiry →
      remote.usersMe = .ok ⟨none⟩ →
      workday_iter remote now hoursPerDay st
        = (st, [Action.getUserId], Outcome.crash (.keyError "user")) := by
  intro remote now hoursPerDay st hcond husers
  have hr := refresh_step_not_needed remote now st hcond
  have hfetch : fetch_step remote now hoursPerDay
      = ([Action.getUserId], Outcome.crash (.keyError "user")) := by
    unfold fetch_step
    rw [husers]
  simp [workday_iter, hr, hfetch]

/-- Witness for the amended C5 theorem at a concrete input. -/
theorem C5_witness :
    ¬ (1000000 : Nat) + 5 * 60 > stB.access_expiry
    ∧ workday_iter r401 1000000 (17 / 2) stB
        = (stB, [Action.getUserId], Outcome.crash (.keyError "user")) :=
  ⟨by decide, C5_auth_error_amended r401 1000000 (17 / 2) stB (by decide) rfl⟩

/-- C6 counterexample: a workday iteration on `rOK`/`stB` fully succeeds
(user and organization resolved, activity rendered) and leaves the state
untouched — nothing became invalid — yet the immediately following workday
iteration of the same process fetches the user id and the organization id
again.  This refutes the claim that the identifiers are resolved at most
once per process start. -/
theorem C6_counterexample :
    (workday_iter rOK 1000000 (17 / 2) stB).2.2 = Outcome.ok 350 30250 55
    ∧ (workday_iter rOK 1000000 (17 / 2) stB).1 = stB
    ∧ Action.getUserId ∈ (workday_iter rOK 1000000 (17 / 2) stB).2.1
    ∧ Action.getUserId
        ∈ (workday_iter rOK 1000060 (17 / 2)
            (workday_iter rOK 1000000 (17 / 2) stB).1).2.1
    ∧ Action.getOrgId
        ∈ (workday_iter rOK 1000060 (17 / 2)
            (workday_iter rOK 1000000 (17 / 2) stB).1).2.1 :=
  ⟨rOK_stB_outcome, by decide, by decide, by decide, by decide⟩

/-- C6 amended: `user_id` and `organization_id` are loop-local variables,
re-resolved by fresh API calls on every workday iteration that reaches the
fetch phase; no process-scoped cache exists.  Stated for every successfully
rendering iteration: its trace always contains both resolution calls. -/
theorem C6_ids_refetched_every_iteration :
    ∀ (remote : Remote) (now : Nat) (hoursPerDay : ℚ) (st : St)
      (w : ℤ) (r : ℚ) (s : Nat),
      (workday_iter remote now hoursPerDay st).2.2 = Outcome.ok w r s →
      Action.getUserId ∈ (workday_iter remote now hoursPerDay st).2.1
      ∧ Action.getOrgId ∈ (workday_iter remote now hoursPerDay st).2.1 := by
  intro remote now hoursPerDay st w r s hok
  cases hh : (refresh_step remote now st).halt with
  | some o =>
      have hout := workday_iter_outcome_halt remote now hoursPerDay st o hh
      rw [hout] at hok
      rcases refresh_step_halt_cases remote now st with h1 | h1 | ⟨e, h1⟩ <;>
        rw [hh] at h1
      · cases h1
      · injection h1 with h2
        rw [h2] at hok
        cases hok
      · injection h1 with h2
        rw [h2] at hok
        cases hok
  | none =>
      have hout := workday_iter_outcome_cont remote now hoursPerDay st hh
      rw [hout] at hok
      have htr := fetch_step_ok_trace remote now hoursPerDay w r s hok
      have hct := workday_iter_trace_cont remote now hoursPerDay st hh
      rw [hct, htr]
      constructor <;> simp

/-- Witness for the amended C6 theorem at a concrete input. -/
theorem C6_witness :
    (workday_iter rOK 1000000 (17 / 2) stB).2.2 = Outcome.ok 350 30250 55
    ∧ Action.getUserId ∈ (workday_iter rOK 1000000 (17 / 2) stB).2.1
    ∧ Action.getOrgId ∈ (workday_iter rOK 1000000 (17 / 2) stB).2.1 :=
  ⟨rOK_stB_outcome,
   C6_ids_refetched_every_iteration rOK 1000000 (17 / 2) stB 350 30250 55
     rOK_stB_outcome⟩

/-- C8 counterexample: at `target_hours_per_day = 1/1024` (an exactly
representable IEEE-754 double whose whole computation is exact) and
`worked_seconds = 0`, the source returns the fractional value `225/64`,
not the integer `max 0 (round (t * 3600) - w) = 4` the claim specifies —
the source performs no rounding and returns a float. -/
theorem C8_counterexample :
    get_time_remaining (1 / 1024 : ℚ) 0
      ≠ ((max 0 (round ((1 / 1024 : ℚ) * 3600) - 0) : ℤ) : ℚ) := by
  norm_num [get_time_remaining, round_eq]

/-- C8 amended: `remaining` is pure and total and returns
`max 0 (t * 3600 - w)` exactly, with no rounding (so the result can be
fractional when `t * 3600` is not an integer); it is never negative, and on
the claimed example inputs (where the product is the integer 30600) the
three stated equations hold. -/
theorem C8_remaining_amended :
    (∀ (t : ℚ) (w : ℤ),
        get_time_remaining t w = max 0 (t * 3600 - (w : ℚ))
        ∧ 0 ≤ get_time_remaining t w)
    ∧ get_time_remaining (8.5 : ℚ) 0 = 30600
    ∧ get_time_remaining (8.5 : ℚ) 30600 = 0
    ∧ get_time_remaining (8.5 : ℚ) 40000 = 0 := by
  refine ⟨fun t w => ?_, by norm_num [get_time_remaining],
    by norm_num [get_time_remaining], by norm_num [get_time_remaining]⟩
  simp only [get_time_remaining]
  rw [show t * 60 * 60 = t * 3600 by ring]
  rcases lt_or_le (t * 3600 - (w : ℚ)) 0 with hlt | hge
  · rw [if_pos hlt]
    exact ⟨(max_eq_left hlt.le).symm, le_refl 0⟩
  · rw [if_neg (not_lt.mpr hge)]
    exact ⟨(max_eq_right hge).symm, hge⟩


/-- The organization fold leaves its accumulator untouched when no element
matches. -/
lemma org_foldl_no_match (orgs : List Org) (acc : Option Nat)
    (h : ∀ o ∈ orgs, nxlog_match o = false) :
    orgs.foldl (fun acc org => if nxlog_match org then some org.id else acc) acc
      = acc := by
  induction orgs generalizing acc with
  | nil => rfl
  | cons x rest ih =>
      simp only [List.foldl_cons]
      rw [if_neg (by simp [h x (List.mem_cons_self x rest)])]
      exact ih acc fun o ho => h o (List.mem_cons_of_mem x ho)

/-- When the filter of matching organizations is exactly `[o]`, the fold
started from `none` returns `o`'s id. -/
lemma org_foldl_single_match (orgs : List Org) (o : Org)
    (hfil : orgs.filter (fun x => nxlog_match x) = [o]) :
    orgs.foldl (fun acc org => if nxlog_match org then some org.id else acc) none
      = some o.id := by
  induction orgs with
  | nil => cases hfil
  | cons x rest ih =>
      by_cases hx : nxlog_match x = true
      · rw [List.filter_cons_of_pos hx] at hfil
        have hxo : x = o := by
          injection hfil
        have hrest : rest.filter (fun x => nxlog_match x) = [] := by
          injection hfil
        have hnone : ∀ o' ∈ rest, nxlog_match o' = false := by
          intro o' ho'
          by_contra hcon
          have : o' ∈ rest.filter (fun x => nxlog_match x) :=
            List.mem_filter.mpr ⟨ho', by simpa using hcon⟩
          rw [hrest] at this
          cases this
        simp only [List.foldl_cons]
        rw [if_pos hx, org_foldl_no_match rest _ hnone, hxo]
      · rw [List.filter_cons_of_neg hx] at hfil
        simp only [List.foldl_cons]
        rw [if_neg hx]
        exact ih hfil

/-- C7: organization resolution over a decoded organizations list.  When the
sublist of organizations whose name contains the configured substring
`"NXLog"` is exactly `[o]`, resolution returns `o`'s id; when it is empty,
resolution deterministically fails (the source raises on the unbound
`organization_id` local, the failure the spec names `NotFoundError`) — it
neither succeeds nor returns any other organization's id. -/
theorem C7_org_resolution :
    ∀ orgs : List Org,
      (∀ o : Org, orgs.filter (fun x => nxlog_match x) = [o] →
          get_organization_id orgs = some o.id)
      ∧ (orgs.filter (fun x => nxlog_match x) = [] →
          get_organization_id orgs = none) := by
  intro orgs
  constructor
  · intro o hfil
    exact org_foldl_single_match orgs o hfil
  · intro hfil
    refine org_foldl_no_match orgs none ?_
    intro o ho
    by_contra hcon
    have : o ∈ orgs.filter (fun x => nxlog_match x) :=
      List.mem_filter.mpr ⟨ho, by simpa using hcon⟩
    rw [hfil] at this
    cases this

/-- Witness for C7 at concrete inputs: one list with a single matching
organization, one list with no match. -/
theorem C7_witness :
    get_organization_id [⟨7, "NXLog Ltd"⟩] = some 7
    ∧ get_organization_id [⟨3, "Acme"⟩] = none :=
  ⟨(C7_org_resolution [⟨7, "NXLog Ltd"⟩]).1 ⟨7, "NXLog Ltd"⟩ (by decide),
   (C7_org_resolution [⟨3, "Acme"⟩]).2 (by decide)⟩

/-- C3: within one workday iteration the refresh runs exactly when
`now + 5 minutes` exceeds the stored expiry, and whenever it runs and any
ActivityClient call is subsequently made, the iteration's first three
actions are discovery, exchange, save — so the refresh completed and the new
credential was persisted before that ActivityClient call, which is not among
those first three actions. -/
theorem C3_refresh_trigger_order :
    ∀ (remote : Remote) (now : Nat) (hoursPerDay : ℚ) (st : St),
      (Action.discovery ∈ (workday_iter remote now hoursPerDay st).2.1
          ↔ now + 5 * 60 > st.access_expiry)
      ∧ (now + 5 * 60 > st.access_expiry →
          ∀ a : Action, a.isActivityCall = true →
            a ∈ (workday_iter remote now hoursPerDay st).2.1 →
              (workday_iter remote now hoursPerDay st).2.1.take 3
                  = [Action.discovery, Action.exchange st.refresh_token,
                     Action.saveTokens]
              ∧ a ∉ (workday_iter remote now hoursPerDay st).2.1.take 3) := by
  intro remote now hoursPerDay st
  constructor
  · constructor
    · intro hmem
      by_contra hnot
      have hr := refresh_step_not_needed remote now st hnot
      have ht := workday_iter_trace_cont remote now hoursPerDay st (by rw [hr])
      rw [ht, hr] at hmem
      simp only [List.nil_append] at hmem
      rcases fetch_step_trace_mem remote now hoursPerDay _ hmem
        with h | h | h | h <;> exact Action.noConfusion h
    · intro hcond
      obtain ⟨rest, hrest⟩ := refresh_step_needed_head remote now st hcond
      cases hh : (refresh_step remote now st).halt with
      | some o =>
          rw [workday_iter_trace_halt remote now hoursPerDay st o hh, hrest]
          exact List.mem_cons_self _ _
      | none =>
          rw [workday_iter_trace_cont remote now hoursPerDay st hh, hrest]
          exact List.mem_append_left _ (List.mem_cons_self _ _)
  · intro hcond a hcall hmem
    cases hh : (refresh_step remote now st).halt with
    | some o =>
        rw [workday_iter_trace_halt remote now hoursPerDay st o hh] at hmem
        rcases refresh_step_trace_mem remote now st a hmem with h | h | h <;>
          (subst h; simp [Action.isActivityCall] at hcall)
    | none =>
        have ht := workday_iter_trace_cont remote now hoursPerDay st hh
        have hs := refresh_step_success_trace remote now st hcond hh
        rw [ht, hs]
        refine ⟨rfl, ?_⟩
        intro hin
        have hin' : a ∈ [Action.discovery, Action.exchange st.refresh_token,
            Action.saveTokens] := hin
        simp only [List.mem_cons, List.not_mem_nil, or_false] at hin'
        rcases hin' with h | h | h <;>
          (subst h; simp [Action.isActivityCall] at hcall)

/-- Witness for C3: with an expiry 4 minutes away the refresh runs and
precedes the ActivityClient calls; with an expiry 10 minutes away no refresh
happens. -/
theorem C3_witness :
    Action.discovery ∈ (workday_iter rOK 1000000 (17 / 2) stA).2.1
    ∧ (workday_iter rOK 1000000 (17 / 2) stA).2.1.take 3
        = [Action.discovery, Action.exchange stA.refresh_token,
           Action.saveTokens]
    ∧ Action.discovery ∉ (workday_iter rOK 1000000 (17 / 2) stB).2.1 := by
  obtain ⟨hiffA, hordA⟩ := C3_refresh_trigger_order rOK 1000000 (17 / 2) stA
  obtain ⟨hiffB, -⟩ := C3_refresh_trigger_order rOK 1000000 (17 / 2) stB
  refine ⟨hiffA.mpr (by decide),
    (hordA (by decide) Action.getUserId rfl (by decide)).1, ?_⟩
  intro hmem
  exact absurd (hiffB.mp hmem) (by decide)

/-- C4: when the refresh is due and either the discovery GET or the exchange
POST raises a network exception, the whole state — the in-memory triple and
the persisted record — is returned unchanged and the iteration ends in the
30-second retry outcome. -/
theorem C4_refresh_net_error :
    ∀ (remote : Remote) (now : Nat) (hoursPerDay : ℚ) (st : St),
      now + 5 * 60 > st.access_expiry →
      ((remote.discovery = .error () →
          workday_iter remote now hoursPerDay st
            = (st, [Action.discovery], Outcome.netRetry 30))
      ∧ (∀ ep : String,
          remote.discovery = .ok ⟨some ep⟩ →
          remote.exchange st.refresh_token = .error () →
          workday_iter remote now hoursPerDay st
            = (st, [Action.discovery, Action.exchange st.refresh_token],
               Outcome.netRetry 30))) := by
  intro remote now hoursPerDay st hcond
  have hb := needs_refresh_pos now st.access_expiry hcond
  constructor
  · intro hdisc
    have hstep : refresh_step remote now st
        = ⟨st, [Action.discovery], some (Outcome.netRetry 30)⟩ := by
      unfold refresh_step
      rw [if_pos hb, hdisc]
    simp [workday_iter, hstep]
  · intro ep hdisc hex
    have hstep : refresh_step remote now st
        = ⟨st, [Action.discovery, Action.exchange st.refresh_token],
           some (Outcome.netRetry 30)⟩ := by
      unfold refresh_step
      rw [if_pos hb, hdisc, hex]
    simp [workday_iter, hstep]

/-- Witness for C4: the two failing remotes at a credential 4 minutes from
expiry. -/
theorem C4_witness :
    workday_iter rNetD 1000000 (17 / 2) stA
        = (stA, [Action.discovery], Outcome.netRetry 30)
    ∧ workday_iter rNetX 1000000 (17 / 2) stA
        = (stA, [Action.discovery, Action.exchange stA.refresh_token],
           Outcome.netRetry 30) :=
  ⟨(C4_refresh_net_error rNetD 1000000 (17 / 2) stA (by decide)).1 rfl,
   (C4_refresh_net_error rNetX 1000000 (17 / 2) stA (by decide)).2
     "https://ep" rfl rfl⟩

/-- C9: every loop iteration's trace starts with the pure watchdog prefix —
`[reboot]` exactly when uptime exceeds 60 minutes, `[]` otherwise — and no
later (state-specific) action is a reboot; at 61 minutes the very first
action is the reboot, at 59 minutes no reboot occurs at all. -/
theorem C9_watchdog :
    ∀ (remote : Remote) (now start_time day_of_week : Nat)
      (hoursPerDay : ℚ) (st : St),
      ∃ rest : List Action,
        (loop_iter remote now start_time day_of_week hoursPerDay st).2.1
            = (if watchdog_fires now start_time then [Action.reboot] else [])
              ++ rest
        ∧ Action.reboot ∉ rest
        ∧ (now - start_time = 61 * 60 →
            (loop_iter remote now start_time day_of_week hoursPerDay
              st).2.1.head? = some Action.reboot)
        ∧ (now - start_time = 59 * 60 →
            Action.reboot
              ∉ (loop_iter remote now start_time day_of_week hoursPerDay
                  st).2.1) := by
  intro remote now s d hoursPerDay st
  obtain ⟨rest, hrest, hnot⟩ :
      ∃ rest : List Action,
        (loop_iter remote now s d hoursPerDay st).2.1
            = (if watchdog_fires now s then [Action.reboot] else []) ++ rest
        ∧ Action.reboot ∉ rest := by
    cases hb : select_branch d with
    | weekend =>
        exact ⟨[Action.displayImage "sunday.bmp"], by simp [loop_iter, hb],
          by decide⟩
    | saturday =>
        exact ⟨[Action.displayImage "saturday.bmp"], by simp [loop_iter, hb],
          by decide⟩
    | workday =>
        refine ⟨(workday_iter remote now hoursPerDay st).2.1,
          by simp [loop_iter, hb], ?_⟩
        intro hmem
        rcases workday_iter_trace_mem remote now hoursPerDay st _ hmem
          with h | h | h | h | h | h | h <;> exact Action.noConfusion h
  refine ⟨rest, hrest, hnot, ?_, ?_⟩
  · intro h61
    have hw : watchdog_fires now s = true := by
      simp [watchdog_fires, h61]
    rw [hrest, hw]
    simp
  · intro h59
    have hw : watchdog_fires now s = false := by
      simp [watchdog_fires, h59]
    rw [hrest, hw]
    simpa using hnot

/-- Witness for C9 at concrete uptimes of 61 and 59 minutes. -/
theorem C9_witness :
    (loop_iter rOK 3660 0 3 (17 / 2) stB).2.1.head? = some Action.reboot
    ∧ Action.reboot ∉ (loop_iter rOK 3540 0 3 (17 / 2) stB).2.1 := by
  obtain ⟨r1, -, -, h61, -⟩ := C9_watchdog rOK 3660 0 3 (17 / 2) stB
  obtain ⟨r2, -, -, -, h59⟩ := C9_watchdog rOK 3540 0 3 (17 / 2) stB
  exact ⟨h61 (by decide), h59 (by decide)⟩

/-- C10: in every daily-activity fetch the `date[start]` and `date[stop]`
query parameters are equal and both are the calendar day of the local clock
advanced by 7 hours; any `getActivities` action a workday iteration emits
carries exactly that pair, and from 17:00 local time onward the queried day
is the next calendar day, not the current one. -/
theorem C10_activity_query_dates :
    ∀ now : Nat,
      (get_billable_activity_dates now).1 = (get_billable_activity_dates now).2
      ∧ (get_billable_activity_dates now).1 = (now + 7 * 3600) / 86400
      ∧ (∀ (remote : Remote) (hoursPerDay : ℚ) (st : St) (s e : Nat),
          Action.getActivities s e
              ∈ (workday_iter remote now hoursPerDay st).2.1 →
            s = (get_billable_activity_dates now).1
            ∧ e = (get_billable_activity_dates now).2)
      ∧ (61200 ≤ now % 86400 →
          (get_billable_activity_dates now).1 = now / 86400 + 1) := by
  intro now
  refine ⟨rfl, rfl, ?_, ?_⟩
  · intro remote hoursPerDay st s e hmem
    rcases workday_iter_trace_mem remote now hoursPerDay st _ hmem
      with h | h | h | h | h | h | h
    · exact Action.noConfusion h
    · exact Action.noConfusion h
    · exact Action.noConfusion h
    · exact Action.noConfusion h
    · exact Action.noConfusion h
    · injection h with h1 h2
      exact ⟨h1, h2⟩
    · exact Action.noConfusion h
  · intro h17
    show (now + 7 * 3600) / 86400 = now / 86400 + 1
    omega

/-- Witness for C10 at 17:00 local time on day 0: the queried day is day 1. -/
theorem C10_witness :
    ((1 : Nat) = (get_billable_activity_dates 61200).1
      ∧ (1 : Nat) = (get_billable_activity_dates 61200).2)
    ∧ (get_billable_activity_dates 61200).1 = 61200 / 86400 + 1 := by
  obtain ⟨h1, h2, h3, h4⟩ := C10_activity_query_dates 61200
  exact ⟨h3 rOK (17 / 2) stB 1 1 (by decide), h4 (by decide)⟩


end RpiEink
